import Mathlib

/-!
# Shallow embedding of the Kust protocol driver (src/Kust.py)

This file embeds the protocol core of the repository: the `Kust` driver
class and its nested `SerialCommunication` transport class.

Modelling decisions, shared by every definition below:

* Serial I/O is abstracted by a `SerialPort`: a function from the framed
  request text written to the wire (`f'{req}{nbr}\r\n'`) to the outcome of
  the subsequent `readline().decode('UTF-8')` — either `.failure` (any
  exception raised while opening, writing, reading or decoding, all of
  which are absorbed by the bare `except:` of `req_resp`) or `.line s`
  (the decoded response text).  `open_port` performs I/O only and is
  absorbed into this abstraction.
* Python exceptions that escape a function are modelled with
  `Except PyExc`: `.error e` means the Python function raises `e`
  uncaught; `.ok v` means it returns the value `v`.
* Each driver accessor additionally returns the list of framed request
  texts it handed to the serial port, in order, so that statements about
  "requests issued" (their number, order, and the absence of I/O) can be
  made.  The second component is pure observation; the first component is
  the Python return value / exception.
* Strings are treated at ASCII granularity: the character classes
  `\w`, `\d`, `\s` of Python's `re` are modelled by their ASCII subsets,
  which is exact for the protocol's byte alphabet.
* Python `float` values are modelled by `ℚ`.  The raw protocol values are
  decimal integer strings, and the scalings `/10` and `/1000` are exact.
* `kust_debug` only prints to stdout and is not modelled; `check_response`
  and `reset_errors` call it for its side effect alone.
-/

/-- ASCII model of Python's regex class `\w` (`[A-Za-z0-9_]`). -/
def isWordChar (c : Char) : Bool := c.isAlphanum || c == '_'

/-- ASCII model of Python's regex class `\d` (`[0-9]`). -/
def isDigitChar (c : Char) : Bool := c.isDigit

/-- ASCII model of Python's regex class `\s` (space, tab, newline,
carriage return, vertical tab, form feed). -/
def isSpaceChar (c : Char) : Bool :=
  c == ' ' || c == '\t' || c == '\n' || c == '\r' || c == '\x0b' || c == '\x0c'

/-- The parsed response dictionary built by
`SerialCommunication.parse_response`: keys `Command`, `ErrCode`, `Value`. -/
structure Response where
  Command : String
  ErrCode : String
  Value : String
deriving DecidableEq, Repr

/-- The sentinel dictionary `{'Command':'', 'ErrCode':'', 'Value':''}`
returned by `req_resp` on any exception and by `parse_response` on a
regex mismatch. -/
def sentinel : Response := { Command := "", ErrCode := "", Value := "" }

/-- Outcome of one wire exchange as seen by `req_resp`'s `try` block:
`.failure` models any exception from `open_port` / `write` / `readline` /
`decode`; `.line s` models a successful read decoding to `s`. -/
inductive LineOutcome where
  | failure : LineOutcome
  | line : String → LineOutcome

/-- The serial port `self.ser`, abstracted as the response behaviour for
each framed request text. -/
def SerialPort := String → LineOutcome

/-- The framed request text `f'{req}{nbr}\r\n'` built in `req_resp`. -/
def frame (req nbr : String) : String := req ++ nbr ++ "\r\n"

/-- Numeric value of a list of decimal digit characters, most significant
first (the value Python's `int`/`float` give a digit string). -/
def digitsVal (l : List Char) : Nat :=
  l.foldl (fun n c => 10 * n + (c.toNat - 48)) 0

/-- Digit-string parser underlying the models of Python `int()` and
`float()`: succeeds exactly on a nonempty run of decimal digits. -/
def pyNatCore (ds : List Char) : Option Nat :=
  if !ds.isEmpty && ds.all isDigitChar then some (digitsVal ds) else none

/-- Optionally signed decimal integer literal, the shape shared by
Python `int()` and `float()` on the protocol's value strings. -/
def pyIntCore : List Char → Option Int
  | '-' :: ds => (pyNatCore ds).map (fun n => -(n : Int))
  | '+' :: ds => (pyNatCore ds).map (fun n => (n : Int))
  | ds => (pyNatCore ds).map (fun n => (n : Int))

/-- Model of Python `int(s)`: `some` on an optionally signed decimal
integer string, `none` when `int` raises `ValueError` (in particular on
the empty string).  Surrounding whitespace, underscores and non-decimal
bases are outside the protocol's value alphabet and not modelled. -/
def pyInt (s : String) : Option Int := pyIntCore s.data

/-- Model of Python `float(s)` restricted to the protocol's value
alphabet: `some` on an optionally signed decimal integer string, `none`
when `float` raises `ValueError` (in particular on the empty string).
Fractional, exponent and inf/nan syntaxes do not occur on this wire. -/
def pyFloat (s : String) : Option ℚ := (pyIntCore s.data).map (fun z => (z : ℚ))

/-- A Python exception escaping a driver method uncaught. -/
inductive PyExc where
  /-- Python `ValueError` from `float()`/`int()` on a non-numeric string. -/
  | valueError : PyExc
  /-- Python `AttributeError` from calling a method on `self.comm == None`. -/
  | attributeError : PyExc
deriving DecidableEq, Repr

/-- Returns `true` iff the Python call returns rather than raising. -/
def noFault : Except PyExc α → Bool
  | .ok _ => true
  | .error _ => false

/-!
## The response regex

`SerialCommunication.__init__` compiles
`pattern_inc_value = re.compile(r'IB(\w{2})er(\d{2})\w*\s?\+?(\d{5}|.*)')`
and `parse_response` applies it with `re.match` (anchored at the start,
no need to consume the whole line).

The pattern's tail `\w*\s?\+?(\d{5}|.*)` matches at every position (each
piece can match the empty string, the branch `.*` always succeeds), so
Python's backtracking engine never backtracks: every quantifier takes its
greedy first choice.  The match therefore proceeds deterministically:

1. literal `IB`, two `\w` characters (group 1, the Command — note `\w`
   admits digits and `_`), literal `er`, two `\d` digits (group 2, the
   ErrCode); if any of this fails, `re.match` returns `None`;
2. `\w*` consumes the longest run of word characters (the "filler");
3. `\s?` consumes one whitespace character if one is next;
4. `\+?` consumes one `+` if it is next;
5. group 3 is the next five characters when they are all digits
   (`\d{5}`), and otherwise the longest run of non-newline characters
   (`.*`).

`grammarSplit` performs step 1, `parseValue` steps 2–5.
-/

/-- Step 1 of the regex above: the anchored mandatory prefix
`IB(\w{2})er(\d{2})`.  Returns the two Command characters, the two
ErrCode digits and the remaining text, or `none` when `re.match` fails. -/
def grammarSplit : List Char → Option (Char × Char × Char × Char × List Char)
  | 'I' :: 'B' :: c1 :: c2 :: 'e' :: 'r' :: d1 :: d2 :: rest =>
    if isWordChar c1 && isWordChar c2 && isDigitChar d1 && isDigitChar d2 then
      some (c1, c2, d1, d2, rest)
    else
      none
  | _ => none

/-- Steps 2–5 of the regex above: greedy `\w*\s?\+?`, then group 3
(`\d{5}` when the next five characters are digits, else the greedy `.*`,
which stops at a newline). -/
def parseValue (rest : List Char) : List Char :=
  let afterFiller := rest.dropWhile isWordChar
  let afterSpace :=
    match afterFiller with
    | c :: t => if isSpaceChar c then t else afterFiller
    | [] => ([] : List Char)
  let afterPlus :=
    match afterSpace with
    | '+' :: t => t
    | l => l
  match afterPlus with
  | a :: b :: c :: d :: e :: _ =>
    if isDigitChar a && isDigitChar b && isDigitChar c && isDigitChar d && isDigitChar e then
      [a, b, c, d, e]
    else
      afterPlus.takeWhile (fun ch => ch != '\n')
  | _ => afterPlus.takeWhile (fun ch => ch != '\n')

/-- Embedding of `SerialCommunication.parse_response`: apply `pattern_inc_value` with
`re.match`; on a match build the dictionary from the three groups, else
return the sentinel. -/
def SerialCommunication.parse_response (s : String) : Response :=
  match grammarSplit s.data with
  | some (c1, c2, d1, d2, rest) =>
    { Command := ⟨[c1, c2]⟩, ErrCode := ⟨[d1, d2]⟩, Value := ⟨parseValue rest⟩ }
  | none => sentinel

/-- Whether a line matches the response grammar, i.e. whether
`pattern_inc_value.match` succeeds on it. -/
def matchesResponseGrammar (s : String) : Bool := (grammarSplit s.data).isSome

/-- Embedding of `SerialCommunication.req_resp`: frame `req` and `nbr` with CRLF,
write, read one line, decode and parse it; the bare `except:` converts
any exception inside the exchange into the sentinel dictionary. -/
def SerialCommunication.req_resp (ser : SerialPort) (req : String) (nbr : String) : Response :=
  match ser (frame req nbr) with
  | .failure => sentinel
  | .line s => SerialCommunication.parse_response s

/-- Embedding of `SerialCommunication.is_raedy`: issue `IBRF` and test only the
`Command` field against `'RF'` (intentionally no check of error codes).
Second component: the framed requests issued. -/
def SerialCommunication.is_raedy (ser : SerialPort) : Bool × List String :=
  let resp := SerialCommunication.req_resp ser "IBRF" ""
  (resp.Command == "RF", [frame "IBRF" ""])

/-- The `Kust` driver object: `comm` is `None` until a successful
`connect` stores a `SerialCommunication`. -/
structure Kust where
  comm : Option SerialPort

/-- A freshly constructed `Kust()`: the class attribute `comm = None`. -/
def freshKust : Kust := { comm := none }

/-- Outcome of `SerialCommunication(device)` for a given device: pyserial
either yields a working port or raises `serial.SerialException` (with the
fixed, valid line parameters of `__init__`, a bad/unreachable device
identifier is reported by `serial.Serial` as a `SerialException`). -/
inductive ConnectOutcome where
  | success : SerialPort → ConnectOutcome
  | serialException : ConnectOutcome

/-- Embedding of `Kust.connect`: construct the transport; `serial.SerialException` is
caught and turned into `False` (after a debug print), leaving `comm`
unchanged; on success `comm` is set and `True` returned. -/
def Kust.connect (k : Kust) (env : String → ConnectOutcome) (device : String) : Kust × Bool :=
  match env device with
  | .success ser => ({ comm := some ser }, true)
  | .serialException => (k, false)

/-- Embedding of `Kust.check_response`: `False` (after a debug print) when the command
echo differs from `cmd` or the error code differs from `'00'`. -/
def Kust.check_response (resp : Response) (cmd : String) : Bool :=
  if resp.Command != cmd || resp.ErrCode != "00" then false else true

/-- Embedding of `Kust.is_raedy`: `False` without any exchange when `comm == None`,
else delegate to the transport's `is_raedy`. -/
def Kust.is_raedy (k : Kust) : Bool × List String :=
  match k.comm with
  | none => (false, [])
  | some ser => SerialCommunication.is_raedy ser

/-- Embedding of `Kust.get_firmware_version`: one `IBRF` exchange; empty string unless
Command is `'RF'` and ErrCode is `'00'`, else the `Value` field.  On
`comm == None` the attribute access `self.comm.req_resp` raises. -/
def Kust.get_firmware_version (k : Kust) : Except PyExc String × List String :=
  match k.comm with
  | none => (.error .attributeError, [])
  | some ser =>
    let resp := SerialCommunication.req_resp ser "IBRF" ""
    if Kust.check_response resp "RF" then
      (.ok resp.Value, [frame "IBRF" ""])
    else
      (.ok "", [frame "IBRF" ""])

/-- The loop body of `Kust.get_temperatures` over a list of channel
numbers: issue `IBRT{i}` per channel; on the first failed check return
early (modelled `.ok none`, Python `return []`); otherwise collect
`float(resp['Value'])/10` per channel (`.error .valueError` when `float`
raises).  Second component: the framed requests issued before the
function left the loop. -/
def tempLoop (ser : SerialPort) : List Nat → Except PyExc (Option (List ℚ)) × List String
  | [] => (.ok (some []), [])
  | i :: rest =>
    let resp := SerialCommunication.req_resp ser "IBRT" (toString i)
    if Kust.check_response resp "RT" then
      match pyFloat resp.Value with
      | none => (.error .valueError, [frame "IBRT" (toString i)])
      | some v =>
        let (res, tr) := tempLoop ser rest
        (res.map (Option.map (fun t => v / 10 :: t)), frame "IBRT" (toString i) :: tr)
    else
      (.ok none, [frame "IBRT" (toString i)])

/-- Embedding of `Kust.get_temperatures`: channels 1..4, `float(value)/10` per
channel, the empty list as soon as one check fails. -/
def Kust.get_temperatures (k : Kust) : Except PyExc (List ℚ) × List String :=
  match k.comm with
  | none => (.error .attributeError, [])
  | some ser =>
    let (res, tr) := tempLoop ser [1, 2, 3, 4]
    (res.map (fun o => o.getD []), tr)

/-- The loop body of `Kust.get_rotational_frequency` over a list of
channel numbers: issue `IBRR{i}` per channel; early `return []` on the
first failed check; otherwise collect `int(resp['Value'])` per channel,
unscaled. -/
def rotLoop (ser : SerialPort) : List Nat → Except PyExc (Option (List Int)) × List String
  | [] => (.ok (some []), [])
  | i :: rest =>
    let resp := SerialCommunication.req_resp ser "IBRR" (toString i)
    if Kust.check_response resp "RR" then
      match pyInt resp.Value with
      | none => (.error .valueError, [frame "IBRR" (toString i)])
      | some v =>
        let (res, tr) := rotLoop ser rest
        (res.map (Option.map (fun t => v :: t)), frame "IBRR" (toString i) :: tr)
    else
      (.ok none, [frame "IBRR" (toString i)])

/-- Embedding of `Kust.get_rotational_frequency`: channels 1..6,
`int(value)` per channel, the empty list as soon as one check fails. -/
def Kust.get_rotational_frequency (k : Kust) : Except PyExc (List Int) × List String :=
  match k.comm with
  | none => (.error .attributeError, [])
  | some ser =>
    let (res, tr) := rotLoop ser [1, 2, 3, 4, 5, 6]
    (res.map (fun o => o.getD []), tr)

/-- Embedding of `Kust.get_oxigen_sensor`: one `IBRI` exchange; `float(value)/1000` on
a valid response, Python's literal `[]` (modelled `.ok none`) on a failed
check. -/
def Kust.get_oxigen_sensor (k : Kust) : Except PyExc (Option ℚ) × List String :=
  match k.comm with
  | none => (.error .attributeError, [])
  | some ser =>
    let resp := SerialCommunication.req_resp ser "IBRI" ""
    if Kust.check_response resp "RI" then
      match pyFloat resp.Value with
      | none => (.error .valueError, [frame "IBRI" ""])
      | some v => (.ok (some (v / 1000)), [frame "IBRI" ""])
    else
      (.ok none, [frame "IBRI" ""])

/-- Embedding of `Kust.reset_errors`: one `IBEI` exchange; the check's boolean is
discarded (only its debug print matters), nothing is returned. -/
def Kust.reset_errors (k : Kust) : Except PyExc Unit × List String :=
  match k.comm with
  | none => (.error .attributeError, [])
  | some ser =>
    let resp := SerialCommunication.req_resp ser "IBEI" ""
    let _ := Kust.check_response resp "EI"
    (.ok (), [frame "IBEI" ""])

/-!
## General lemmas about the channel loops
-/

/-- Mapping the returned value does not change whether a call raised. -/
theorem noFault_map (e : Except PyExc α) (f : α → β) : noFault (e.map f) = noFault e := by
  cases e <;> rfl

/-- When every channel in `chs` answers with a valid response whose value
parses to `v i`, the temperature loop completes, collecting `v i / 10`
per channel and issuing one framed `IBRT{i}` request per channel. -/
theorem tempLoop_valid (ser : SerialPort) (v : Nat → ℚ) (chs : List Nat)
    (h : ∀ i ∈ chs,
      Kust.check_response (SerialCommunication.req_resp ser "IBRT" (toString i)) "RT" = true ∧
      pyFloat (SerialCommunication.req_resp ser "IBRT" (toString i)).Value = some (v i)) :
    tempLoop ser chs =
      (.ok (some (chs.map (fun i => v i / 10))),
       chs.map (fun i => frame "IBRT" (toString i))) := by
  induction chs with
  | nil => rfl
  | cons i rest ih =>
    obtain ⟨hc, hv⟩ := h i (List.mem_cons_self i rest)
    have hrest := ih (fun j hj => h j (List.mem_cons_of_mem i hj))
    simp [tempLoop, hc, hv, hrest, Except.map]

/-- When the channels before `k` answer validly with parseable values and
channel `k` fails the check, the temperature loop stops at `k` with the
early-return marker, having issued the requests up to and including `k`. -/
theorem tempLoop_abort (ser : SerialPort) (pre : List Nat) (k : Nat) (post : List Nat)
    (hpre : ∀ j ∈ pre,
      Kust.check_response (SerialCommunication.req_resp ser "IBRT" (toString j)) "RT" = true ∧
      (pyFloat (SerialCommunication.req_resp ser "IBRT" (toString j)).Value).isSome = true)
    (hk : Kust.check_response (SerialCommunication.req_resp ser "IBRT" (toString k)) "RT" = false) :
    tempLoop ser (pre ++ k :: post) =
      (.ok none, (pre ++ [k]).map (fun i => frame "IBRT" (toString i))) := by
  induction pre with
  | nil => simp [tempLoop, hk]
  | cons j rest ih =>
    obtain ⟨hc, hv⟩ := hpre j (List.mem_cons_self j rest)
    obtain ⟨v, hv2⟩ := Option.isSome_iff_exists.mp hv
    have hrest := ih (fun a ha => hpre a (List.mem_cons_of_mem j ha))
    simp [tempLoop, hc, hv2, hrest, Except.map]

/-- When every channel whose check passes carries a parseable value, the
temperature loop never raises. -/
theorem tempLoop_noFault (ser : SerialPort) (chs : List Nat)
    (h : ∀ i ∈ chs,
      Kust.check_response (SerialCommunication.req_resp ser "IBRT" (toString i)) "RT" = true →
      (pyFloat (SerialCommunication.req_resp ser "IBRT" (toString i)).Value).isSome = true) :
    noFault (tempLoop ser chs).fst = true := by
  induction chs with
  | nil => rfl
  | cons i rest ih =>
    have hrest := ih (fun j hj hcj => h j (List.mem_cons_of_mem i hj) hcj)
    by_cases hc :
        Kust.check_response (SerialCommunication.req_resp ser "IBRT" (toString i)) "RT" = true
    · obtain ⟨v, hv⟩ := Option.isSome_iff_exists.mp (h i (List.mem_cons_self i rest) hc)
      rcases hp : tempLoop ser rest with ⟨res, tr⟩
      rw [hp] at hrest
      simp [tempLoop, hc, hv, hp, noFault_map]
      simpa using hrest
    · simp [tempLoop, Bool.of_not_eq_true hc, noFault]

/-- When every channel in `chs` answers with a valid response whose value
parses to `v i`, the rotation loop completes, collecting the unscaled
`v i` per channel and issuing one framed `IBRR{i}` request per channel. -/
theorem rotLoop_valid (ser : SerialPort) (v : Nat → Int) (chs : List Nat)
    (h : ∀ i ∈ chs,
      Kust.check_response (SerialCommunication.req_resp ser "IBRR" (toString i)) "RR" = true ∧
      pyInt (SerialCommunication.req_resp ser "IBRR" (toString i)).Value = some (v i)) :
    rotLoop ser chs =
      (.ok (some (chs.map (fun i => v i))),
       chs.map (fun i => frame "IBRR" (toString i))) := by
  induction chs with
  | nil => rfl
  | cons i rest ih =>
    obtain ⟨hc, hv⟩ := h i (List.mem_cons_self i rest)
    have hrest := ih (fun j hj => h j (List.mem_cons_of_mem i hj))
    simp [rotLoop, hc, hv, hrest, Except.map]

/-- When the channels before `k` answer validly with parseable values and
channel `k` fails the check, the rotation loop stops at `k` with the
early-return marker, having issued the requests up to and including `k`. -/
theorem rotLoop_abort (ser : SerialPort) (pre : List Nat) (k : Nat) (post : List Nat)
    (hpre : ∀ j ∈ pre,
      Kust.check_response (SerialCommunication.req_resp ser "IBRR" (toString j)) "RR" = true ∧
      (pyInt (SerialCommunication.req_resp ser "IBRR" (toString j)).Value).isSome = true)
    (hk : Kust.check_response (SerialCommunication.req_resp ser "IBRR" (toString k)) "RR" = false) :
    rotLoop ser (pre ++ k :: post) =
      (.ok none, (pre ++ [k]).map (fun i => frame "IBRR" (toString i))) := by
  induction pre with
  | nil => simp [rotLoop, hk]
  | cons j rest ih =>
    obtain ⟨hc, hv⟩ := hpre j (List.mem_cons_self j rest)
    obtain ⟨v, hv2⟩ := Option.isSome_iff_exists.mp hv
    have hrest := ih (fun a ha => hpre a (List.mem_cons_of_mem j ha))
    simp [rotLoop, hc, hv2, hrest, Except.map]

/-- When every channel whose check passes carries a parseable value, the
rotation loop never raises. -/
theorem rotLoop_noFault (ser : SerialPort) (chs : List Nat)
    (h : ∀ i ∈ chs,
      Kust.check_response (SerialCommunication.req_resp ser "IBRR" (toString i)) "RR" = true →
      (pyInt (SerialCommunication.req_resp ser "IBRR" (toString i)).Value).isSome = true) :
    noFault (rotLoop ser chs).fst = true := by
  induction chs with
  | nil => rfl
  | cons i rest ih =>
    have hrest := ih (fun j hj hcj => h j (List.mem_cons_of_mem i hj) hcj)
    by_cases hc :
        Kust.check_response (SerialCommunication.req_resp ser "IBRR" (toString i)) "RR" = true
    · obtain ⟨v, hv⟩ := Option.isSome_iff_exists.mp (h i (List.mem_cons_self i rest) hc)
      rcases hp : rotLoop ser rest with ⟨res, tr⟩
      rw [hp] at hrest
      simp [rotLoop, hc, hv, hp, noFault_map]
      simpa using hrest
    · simp [rotLoop, Bool.of_not_eq_true hc, noFault]

/-!
## The claims
-/

/-- C1: `get_temperatures` issues the framed requests `IBRT1`..`IBRT4` in
channel order.  When every channel's response echoes Command `RT` with
ErrCode `00` and carries a raw value parsing to `v i`, it returns the
four values `v i / 10` in channel order, over exactly the four requests.
When channel `k` is the first whose response fails validation (every
earlier channel valid, with a parseable raw value), it returns the empty
list — discarding the channels already read — and the issued requests
stop at `IBRT{k}`. -/
theorem claim_C1_getTemperatures :
    (∀ (ser : SerialPort) (v : Nat → ℚ),
      (∀ i ∈ [1, 2, 3, 4],
        Kust.check_response (SerialCommunication.req_resp ser "IBRT" (toString i)) "RT" = true ∧
        pyFloat (SerialCommunication.req_resp ser "IBRT" (toString i)).Value = some (v i)) →
      Kust.get_temperatures { comm := some ser } =
        (.ok [v 1 / 10, v 2 / 10, v 3 / 10, v 4 / 10],
         [frame "IBRT" (toString 1), frame "IBRT" (toString 2),
          frame "IBRT" (toString 3), frame "IBRT" (toString 4)])) ∧
    (∀ (ser : SerialPort) (k : Nat), k ∈ [1, 2, 3, 4] →
      Kust.check_response (SerialCommunication.req_resp ser "IBRT" (toString k)) "RT" = false →
      (∀ j, 1 ≤ j → j < k →
        Kust.check_response (SerialCommunication.req_resp ser "IBRT" (toString j)) "RT" = true ∧
        (pyFloat (SerialCommunication.req_resp ser "IBRT" (toString j)).Value).isSome = true) →
      Kust.get_temperatures { comm := some ser } =
        (.ok [], (List.range k).map (fun j => frame "IBRT" (toString (j + 1))))) := by
  constructor
  · intro ser v h
    simp [Kust.get_temperatures, tempLoop_valid ser v [1, 2, 3, 4] h, Except.map]
  · intro ser k hk hbad hpre
    fin_cases hk
    · have ha : tempLoop ser [1, 2, 3, 4] =
          (.ok none, [frame "IBRT" (toString 1)]) :=
        tempLoop_abort ser [] 1 [2, 3, 4] (by intro j hj; simp at hj) hbad
      simp [Kust.get_temperatures, ha, Except.map]
      decide
    · have ha : tempLoop ser [1, 2, 3, 4] =
          (.ok none, [frame "IBRT" (toString 1), frame "IBRT" (toString 2)]) :=
        tempLoop_abort ser [1] 2 [3, 4]
          (by intro j hj; simp at hj; subst hj; exact hpre 1 (by norm_num) (by norm_num)) hbad
      simp [Kust.get_temperatures, ha, Except.map]
      decide
    · have ha : tempLoop ser [1, 2, 3, 4] =
          (.ok none,
           [frame "IBRT" (toString 1), frame "IBRT" (toString 2), frame "IBRT" (toString 3)]) :=
        tempLoop_abort ser [1, 2] 3 [4]
          (by
            intro j hj
            simp at hj
            rcases hj with hj | hj <;> subst hj
            · exact hpre 1 (by norm_num) (by norm_num)
            · exact hpre 2 (by norm_num) (by norm_num)) hbad
      simp [Kust.get_temperatures, ha, Except.map]
      decide
    · have ha : tempLoop ser [1, 2, 3, 4] =
          (.ok none,
           [frame "IBRT" (toString 1), frame "IBRT" (toString 2), frame "IBRT" (toString 3),
            frame "IBRT" (toString 4)]) :=
        tempLoop_abort ser [1, 2, 3] 4 []
          (by
            intro j hj
            simp at hj
            rcases hj with hj | hj | hj <;> subst hj
            · exact hpre 1 (by norm_num) (by norm_num)
            · exact hpre 2 (by norm_num) (by norm_num)
            · exact hpre 3 (by norm_num) (by norm_num)) hbad
      simp [Kust.get_temperatures, ha, Except.map]
      decide

/-- Closed instance of `claim_C1_getTemperatures`: a port answering
`IBRTer00+00215` on every channel yields the four temperatures 21.5 °C,
and a port answering it only off channel 3 yields the empty list. -/
theorem claim_C1_getTemperatures_witness :
    Kust.get_temperatures { comm := some (fun _ => LineOutcome.line "IBRTer00+00215") } =
      (.ok [((215 : Int) : ℚ) / 10, ((215 : Int) : ℚ) / 10,
            ((215 : Int) : ℚ) / 10, ((215 : Int) : ℚ) / 10],
       [frame "IBRT" (toString 1), frame "IBRT" (toString 2),
        frame "IBRT" (toString 3), frame "IBRT" (toString 4)]) ∧
    Kust.get_temperatures
        { comm := some (fun q => if q = frame "IBRT" (toString 3) then
            LineOutcome.failure else LineOutcome.line "IBRTer00+00215") } =
      (.ok [], (List.range 3).map (fun j => frame "IBRT" (toString (j + 1)))) := by
  constructor
  · exact claim_C1_getTemperatures.1 (fun _ => LineOutcome.line "IBRTer00+00215")
      (fun _ => ((215 : Int) : ℚ)) (fun _ _ => ⟨rfl, rfl⟩)
  · exact claim_C1_getTemperatures.2
      (fun q => if q = frame "IBRT" (toString 3) then
        LineOutcome.failure else LineOutcome.line "IBRTer00+00215")
      3 (by decide)
      (by decide)
      (fun j h1 h2 => by
        interval_cases j
        · exact ⟨by decide, by decide⟩
        · exact ⟨by decide, by decide⟩)

/-- C2 (counterexample): the claim "no public accessor raises an
unhandled fault for any response line and any driver state" is false on
the code.  With no Transport constructed (`comm == None`, a reachable
driver state), `get_temperatures` raises `AttributeError`; and on the
response line `IBRTer0000215` — which matches the grammar and passes
validation, but whose greedily-matched `Value` group is empty — it
raises `ValueError` from `float('')`. -/
theorem claim_C2_noFault_cex :
    (Kust.get_temperatures freshKust).fst = .error .attributeError ∧
    (Kust.get_temperatures
        { comm := some (fun _ => LineOutcome.line "IBRTer0000215") }).fst =
      .error .valueError :=
  ⟨rfl, rfl⟩

/-- C2 (amended): for a driver whose Transport has been constructed, and
provided every response that passes validation carries a `Value` field
parsing as a decimal number, none of the five public accessors raises an
unhandled fault: each returns a value to its caller. -/
theorem claim_C2_noFault_amended (ser : SerialPort)
    (hrt : ∀ i ∈ [1, 2, 3, 4],
      Kust.check_response (SerialCommunication.req_resp ser "IBRT" (toString i)) "RT" = true →
      (pyFloat (SerialCommunication.req_resp ser "IBRT" (toString i)).Value).isSome = true)
    (hrr : ∀ i ∈ [1, 2, 3, 4, 5, 6],
      Kust.check_response (SerialCommunication.req_resp ser "IBRR" (toString i)) "RR" = true →
      (pyInt (SerialCommunication.req_resp ser "IBRR" (toString i)).Value).isSome = true)
    (hri : Kust.check_response (SerialCommunication.req_resp ser "IBRI" "") "RI" = true →
      (pyFloat (SerialCommunication.req_resp ser "IBRI" "").Value).isSome = true) :
    noFault (Kust.get_firmware_version { comm := some ser }).fst = true ∧
    noFault (Kust.get_temperatures { comm := some ser }).fst = true ∧
    noFault (Kust.get_rotational_frequency { comm := some ser }).fst = true ∧
    noFault (Kust.get_oxigen_sensor { comm := some ser }).fst = true ∧
    noFault (Kust.reset_errors { comm := some ser }).fst = true := by
  refine ⟨?_, ?_, ?_, ?_, ?_⟩
  · by_cases hc :
        Kust.check_response (SerialCommunication.req_resp ser "IBRF" "") "RF" = true
    · simp [Kust.get_firmware_version, hc, noFault]
    · simp [Kust.get_firmware_version, Bool.of_not_eq_true hc, noFault]
  · have h := tempLoop_noFault ser [1, 2, 3, 4] hrt
    rcases hp : tempLoop ser [1, 2, 3, 4] with ⟨res, tr⟩
    rw [hp] at h
    simp [Kust.get_temperatures, hp, noFault_map]
    simpa using h
  · have h := rotLoop_noFault ser [1, 2, 3, 4, 5, 6] hrr
    rcases hp : rotLoop ser [1, 2, 3, 4, 5, 6] with ⟨res, tr⟩
    rw [hp] at h
    simp [Kust.get_rotational_frequency, hp, noFault_map]
    simpa using h
  · by_cases hc :
        Kust.check_response (SerialCommunication.req_resp ser "IBRI" "") "RI" = true
    · obtain ⟨v, hv⟩ := Option.isSome_iff_exists.mp (hri hc)
      simp [Kust.get_oxigen_sensor, hc, hv, noFault]
    · simp [Kust.get_oxigen_sensor, Bool.of_not_eq_true hc, noFault]
  · rfl

/-- Closed instance of `claim_C2_noFault_amended` at a port whose every
exchange fails (all responses are the sentinel, so every check fails and
the numeric-value hypotheses hold vacuously). -/
theorem claim_C2_noFault_amended_witness :
    noFault (Kust.get_firmware_version
      { comm := some (fun _ => LineOutcome.failure) }).fst = true ∧
    noFault (Kust.get_temperatures
      { comm := some (fun _ => LineOutcome.failure) }).fst = true ∧
    noFault (Kust.get_rotational_frequency
      { comm := some (fun _ => LineOutcome.failure) }).fst = true ∧
    noFault (Kust.get_oxigen_sensor
      { comm := some (fun _ => LineOutcome.failure) }).fst = true ∧
    noFault (Kust.reset_errors
      { comm := some (fun _ => LineOutcome.failure) }).fst = true :=
  claim_C2_noFault_amended (fun _ => LineOutcome.failure)
    (fun i _ hc => absurd hc (by intro hc2; exact Bool.noConfusion hc2))
    (fun i _ hc => absurd hc (by intro hc2; exact Bool.noConfusion hc2))
    (fun hc => absurd hc (by intro hc2; exact Bool.noConfusion hc2))

/-- C3: when the exchange for a framed request fails on the wire (any
I/O error, timeout or decode failure, modelled by the port answering
`.failure`), `req_resp` returns the sentinel — literally the response
with empty `Command`, `ErrCode` and `Value` fields.  `req_resp` is total
in the embedding: the bare `except:` means no exception crosses its
boundary. -/
theorem claim_C3_reqresp_sentinel (ser : SerialPort) (req nbr : String)
    (h : ser (frame req nbr) = .failure) :
    SerialCommunication.req_resp ser req nbr = sentinel ∧
    sentinel = { Command := "", ErrCode := "", Value := "" } := by
  unfold SerialCommunication.req_resp
  rw [h]
  exact ⟨rfl, rfl⟩

/-- Closed instance of `claim_C3_reqresp_sentinel` at an always-failing
port and the request `IBRT1`. -/
theorem claim_C3_reqresp_sentinel_witness :
    SerialCommunication.req_resp (fun _ => LineOutcome.failure) "IBRT" "1" = sentinel ∧
    sentinel = { Command := "", ErrCode := "", Value := "" } :=
  claim_C3_reqresp_sentinel (fun _ => LineOutcome.failure) "IBRT" "1" rfl

/-- C4: `check_response` succeeds exactly when the response echoes the
expected mnemonic and its error code is the literal `00`; a line that
does not match the response grammar parses to the sentinel; and the
sentinel fails validation against every expected mnemonic. -/
theorem claim_C4_validation :
    (∀ (resp : Response) (cmd : String),
      Kust.check_response resp cmd = true ↔ resp.Command = cmd ∧ resp.ErrCode = "00") ∧
    (∀ s : String, matchesResponseGrammar s = false →
      SerialCommunication.parse_response s = sentinel) ∧
    (∀ cmd : String, Kust.check_response sentinel cmd = false) := by
  refine ⟨?_, ?_, ?_⟩
  · intro resp cmd
    constructor
    · intro h
      by_cases h1 : resp.Command = cmd
      · by_cases h2 : resp.ErrCode = "00"
        · exact ⟨h1, h2⟩
        · simp [Kust.check_response, h1, h2] at h
      · simp [Kust.check_response, h1] at h
    · rintro ⟨h1, h2⟩
      simp [Kust.check_response, h1, h2]
  · intro s h
    unfold SerialCommunication.parse_response
    unfold matchesResponseGrammar at h
    cases hg : grammarSplit s.data with
    | none => rfl
    | some q => rw [hg] at h; simp at h
  · intro cmd
    have h00 : (("" : String) != "00") = true := by decide
    simp [Kust.check_response, sentinel, h00]

/-- Closed instance of `claim_C4_validation`: the malformed line
`garbage` parses to the sentinel. -/
theorem claim_C4_validation_witness :
    matchesResponseGrammar "garbage" = false ∧
    SerialCommunication.parse_response "garbage" = sentinel :=
  ⟨by decide, claim_C4_validation.2.1 "garbage" (by decide)⟩

/-- C5: `is_raedy` on a driver without a constructed Transport returns
`False` over an empty exchange trace (no I/O); with a Transport it
returns exactly the test of the response's Command field against `RF`,
the error code playing no part — in particular a response carrying
ErrCode `99` still yields `True`. -/
theorem claim_C5_isReady :
    Kust.is_raedy freshKust = (false, []) ∧
    (∀ ser : SerialPort,
      (Kust.is_raedy { comm := some ser }).fst =
        ((SerialCommunication.req_resp ser "IBRF" "").Command == "RF")) ∧
    (Kust.is_raedy { comm := some (fun _ => LineOutcome.line "IBRFer99") }).fst = true ∧
    (SerialCommunication.parse_response "IBRFer99").ErrCode = "99" :=
  ⟨rfl, fun ser => rfl, by decide, by decide⟩

/-- C6: framing op `RT` with channel 2 produces exactly `IBRT2` + CRLF;
the line `IBRTer00+00215` parses to Command `RT`, ErrCode `00`, Value
`00215`; and `get_temperatures` derives 21.5 °C from that response for
the channel. -/
theorem claim_C6_roundtrip :
    frame "IBRT" (toString 2) = "IBRT2\r\n" ∧
    SerialCommunication.parse_response "IBRTer00+00215" =
      { Command := "RT", ErrCode := "00", Value := "00215" } ∧
    Kust.get_temperatures { comm := some (fun _ => LineOutcome.line "IBRTer00+00215") } =
      (.ok [21.5, 21.5, 21.5, 21.5],
       [frame "IBRT" (toString 1), frame "IBRT" (toString 2),
        frame "IBRT" (toString 3), frame "IBRT" (toString 4)]) := by
  refine ⟨by decide, by decide, ?_⟩
  have h : (21.5 : ℚ) = ((215 : Int) : ℚ) / 10 := by norm_num
  rw [h]
  have ha := tempLoop_valid (fun _ => LineOutcome.line "IBRTer00+00215")
    (fun _ => ((215 : Int) : ℚ)) [1, 2, 3, 4] (fun _ _ => ⟨rfl, rfl⟩)
  simp [Kust.get_temperatures, ha, Except.map]

/-- C7: `get_rotational_frequency` issues the framed requests
`IBRR1`..`IBRR6` in channel order.  When every channel's response echoes
Command `RR` with ErrCode `00` and carries a raw value parsing to the
integer `v i`, it returns the six values `v i` unscaled, in channel
order, over exactly the six requests.  When channel `k` is the first
whose response fails validation (every earlier channel valid with a
parseable raw value), it returns the empty list and the issued requests
stop at `IBRR{k}`. -/
theorem claim_C7_getRotationalSpeeds :
    (∀ (ser : SerialPort) (v : Nat → Int),
      (∀ i ∈ [1, 2, 3, 4, 5, 6],
        Kust.check_response (SerialCommunication.req_resp ser "IBRR" (toString i)) "RR" = true ∧
        pyInt (SerialCommunication.req_resp ser "IBRR" (toString i)).Value = some (v i)) →
      Kust.get_rotational_frequency { comm := some ser } =
        (.ok [v 1, v 2, v 3, v 4, v 5, v 6],
         [frame "IBRR" (toString 1), frame "IBRR" (toString 2), frame "IBRR" (toString 3),
          frame "IBRR" (toString 4), frame "IBRR" (toString 5), frame "IBRR" (toString 6)])) ∧
    (∀ (ser : SerialPort) (k : Nat), k ∈ [1, 2, 3, 4, 5, 6] →
      Kust.check_response (SerialCommunication.req_resp ser "IBRR" (toString k)) "RR" = false →
      (∀ j, 1 ≤ j → j < k →
        Kust.check_response (SerialCommunication.req_resp ser "IBRR" (toString j)) "RR" = true ∧
        (pyInt (SerialCommunication.req_resp ser "IBRR" (toString j)).Value).isSome = true) →
      Kust.get_rotational_frequency { comm := some ser } =
        (.ok [], (List.range k).map (fun j => frame "IBRR" (toString (j + 1))))) := by
  constructor
  · intro ser v h
    simp [Kust.get_rotational_frequency, rotLoop_valid ser v [1, 2, 3, 4, 5, 6] h, Except.map]
  · intro ser k hk hbad hpre
    have key : ∀ pre post : List Nat, pre ++ k :: post = [1, 2, 3, 4, 5, 6] →
        (∀ j ∈ pre,
          Kust.check_response (SerialCommunication.req_resp ser "IBRR" (toString j)) "RR"
            = true ∧
          (pyInt (SerialCommunication.req_resp ser "IBRR" (toString j)).Value).isSome = true) →
        Kust.get_rotational_frequency { comm := some ser } =
          (.ok [], (pre ++ [k]).map (fun i => frame "IBRR" (toString i))) := by
      intro pre post hsplit hgood
      have ha := rotLoop_abort ser pre k post hgood hbad
      rw [hsplit] at ha
      simp [Kust.get_rotational_frequency, ha, Except.map]
    fin_cases hk
    · have := key [] [2, 3, 4, 5, 6] rfl (by intro j hj; simp at hj)
      rw [this]
      simp only [Prod.mk.injEq]
      exact ⟨trivial, by decide⟩
    · have := key [1] [3, 4, 5, 6] rfl
        (by intro j hj; simp at hj; subst hj; exact hpre 1 (by norm_num) (by norm_num))
      rw [this]
      simp only [Prod.mk.injEq]
      exact ⟨trivial, by decide⟩
    · have := key [1, 2] [4, 5, 6] rfl
        (by
          intro j hj
          simp at hj
          rcases hj with hj | hj <;> subst hj
          · exact hpre 1 (by norm_num) (by norm_num)
          · exact hpre 2 (by norm_num) (by norm_num))
      rw [this]
      simp only [Prod.mk.injEq]
      exact ⟨trivial, by decide⟩
    · have := key [1, 2, 3] [5, 6] rfl
        (by
          intro j hj
          simp at hj
          rcases hj with hj | hj | hj <;> subst hj
          · exact hpre 1 (by norm_num) (by norm_num)
          · exact hpre 2 (by norm_num) (by norm_num)
          · exact hpre 3 (by norm_num) (by norm_num))
      rw [this]
      simp only [Prod.mk.injEq]
      exact ⟨trivial, by decide⟩
    · have := key [1, 2, 3, 4] [6] rfl
        (by
          intro j hj
          simp at hj
          rcases hj with hj | hj | hj | hj <;> subst hj
          · exact hpre 1 (by norm_num) (by norm_num)
          · exact hpre 2 (by norm_num) (by norm_num)
          · exact hpre 3 (by norm_num) (by norm_num)
          · exact hpre 4 (by norm_num) (by norm_num))
      rw [this]
      simp only [Prod.mk.injEq]
      exact ⟨trivial, by decide⟩
    · have := key [1, 2, 3, 4, 5] [] rfl
        (by
          intro j hj
          simp at hj
          rcases hj with hj | hj | hj | hj | hj <;> subst hj
          · exact hpre 1 (by norm_num) (by norm_num)
          · exact hpre 2 (by norm_num) (by norm_num)
          · exact hpre 3 (by norm_num) (by norm_num)
          · exact hpre 4 (by norm_num) (by norm_num)
          · exact hpre 5 (by norm_num) (by norm_num))
      rw [this]
      simp only [Prod.mk.injEq]
      exact ⟨trivial, by decide⟩

/-- Closed instance of `claim_C7_getRotationalSpeeds`: a port answering
`IBRRer00+00500` on every channel yields six unscaled speeds of 500 rpm. -/
theorem claim_C7_getRotationalSpeeds_witness :
    Kust.get_rotational_frequency
        { comm := some (fun _ => LineOutcome.line "IBRRer00+00500") } =
      (.ok [(500 : Int), 500, 500, 500, 500, 500],
       [frame "IBRR" (toString 1), frame "IBRR" (toString 2), frame "IBRR" (toString 3),
        frame "IBRR" (toString 4), frame "IBRR" (toString 5), frame "IBRR" (toString 6)]) :=
  claim_C7_getRotationalSpeeds.1 (fun _ => LineOutcome.line "IBRRer00+00500")
    (fun _ => (500 : Int)) (fun _ _ => ⟨rfl, rfl⟩)

/-- C8: `get_oxigen_sensor` issues exactly one framed `IBRI` request; on
a response echoing Command `RI` with ErrCode `00` and a raw value
parsing to `v` it returns `v / 1000` (mA); on a response failing
validation it returns Python's empty list (the modelled `none`). -/
theorem claim_C8_getOxygenCurrent :
    (∀ (ser : SerialPort) (v : ℚ),
      Kust.check_response (SerialCommunication.req_resp ser "IBRI" "") "RI" = true →
      pyFloat (SerialCommunication.req_resp ser "IBRI" "").Value = some v →
      Kust.get_oxigen_sensor { comm := some ser } =
        (.ok (some (v / 1000)), [frame "IBRI" ""])) ∧
    (∀ ser : SerialPort,
      Kust.check_response (SerialCommunication.req_resp ser "IBRI" "") "RI" = false →
      Kust.get_oxigen_sensor { comm := some ser } = (.ok none, [frame "IBRI" ""])) := by
  constructor
  · intro ser v hc hv
    simp [Kust.get_oxigen_sensor, hc, hv]
  · intro ser hc
    simp [Kust.get_oxigen_sensor, hc]

/-- Closed instances of `claim_C8_getOxygenCurrent`: a port answering
`IBRIer00+01234` yields 1.234 mA; an always-failing port yields the
empty value. -/
theorem claim_C8_getOxygenCurrent_witness :
    Kust.get_oxigen_sensor { comm := some (fun _ => LineOutcome.line "IBRIer00+01234") } =
      (.ok (some (((1234 : Int) : ℚ) / 1000)), [frame "IBRI" ""]) ∧
    Kust.get_oxigen_sensor { comm := some (fun _ => LineOutcome.failure) } =
      (.ok none, [frame "IBRI" ""]) :=
  ⟨claim_C8_getOxygenCurrent.1 (fun _ => LineOutcome.line "IBRIer00+01234")
      ((1234 : Int) : ℚ) rfl rfl,
    claim_C8_getOxygenCurrent.2 (fun _ => LineOutcome.failure) rfl⟩

/-- C9: when constructing the Transport for a device fails (pyserial
raising `SerialException`), `connect` catches it and returns `False`,
leaving `comm` unchanged — the failure never propagates (the embedded
`connect` is total); on a fresh driver `is_raedy` afterwards returns
`False` over an empty exchange trace, i.e. without any I/O. -/
theorem claim_C9_connect (env : String → ConnectOutcome) (device : String)
    (h : env device = .serialException) :
    Kust.connect freshKust env device = (freshKust, false) ∧
    Kust.is_raedy (Kust.connect freshKust env device).fst = (false, []) := by
  unfold Kust.connect
  rw [h]
  exact ⟨rfl, rfl⟩

/-- Closed instance of `claim_C9_connect` at an environment in which
every device fails to open. -/
theorem claim_C9_connect_witness :
    Kust.connect freshKust (fun _ => ConnectOutcome.serialException) "COM1" =
      (freshKust, false) ∧
    Kust.is_raedy
      (Kust.connect freshKust (fun _ => ConnectOutcome.serialException) "COM1").fst =
      (false, []) :=
  claim_C9_connect (fun _ => ConnectOutcome.serialException) "COM1" rfl

/-- C10: every line starting with `IB`, two word characters, `er` and
two digits parses successfully — never to the sentinel — whatever the
trailing text, and the Command group may contain digits (witness
`IBR7er42!!!what`).  Because the filler `\w*` is greedy, a line whose
payload digits directly follow the error code with no sign or
whitespace, such as `IBRTer0000215`, parses with an empty `Value` —
the filler swallows the five payload digits — yet still passes
validation for `RT`. -/
theorem claim_C10_greedyFiller :
    (∀ s : String, matchesResponseGrammar s = true →
      SerialCommunication.parse_response s ≠ sentinel) ∧
    SerialCommunication.parse_response "IBR7er42!!!what" =
      { Command := "R7", ErrCode := "42", Value := "!!!what" } ∧
    SerialCommunication.parse_response "IBRTer0000215" =
      { Command := "RT", ErrCode := "00", Value := "" } ∧
    Kust.check_response (SerialCommunication.parse_response "IBRTer0000215") "RT" = true := by
  refine ⟨?_, by decide, by decide, by decide⟩
  intro s h
  unfold matchesResponseGrammar at h
  cases hg : grammarSplit s.data with
  | none => rw [hg] at h; simp at h
  | some q =>
    obtain ⟨c1, c2, d1, d2, rest⟩ := q
    intro hcontra
    have hcmd := congrArg (fun r => r.Command.data) hcontra
    simp [SerialCommunication.parse_response, hg, sentinel] at hcmd

/-- Closed instance of `claim_C10_greedyFiller`: the line `IBRTer00`
matches the grammar and parses to a non-sentinel response. -/
theorem claim_C10_greedyFiller_witness :
    matchesResponseGrammar "IBRTer00" = true ∧
    SerialCommunication.parse_response "IBRTer00" ≠ sentinel :=
  ⟨by decide, claim_C10_greedyFiller.1 "IBRTer00" (by decide)⟩
